import Mathlib

/-!
Verification of the concert booking/billing system: a shallow embedding of the
record model (models.py), the CRUD layer (crud_operations.py), the Flask
mutation routes (app.py) and the aggregation reports (analytics.py), together
with theorems settling the specification claims.

Conventions: MongoDB ObjectIds are `Nat`; currency values are `Rat` (exact
field arithmetic standing for Python floats); datetimes are `Nat` timestamps
except booking dates, which carry a year/month/day structure because the
monthly report groups on them.  A collection is a `List` of documents; the
store being unreachable is the `Except.error` case of the input.
-/

namespace Billing

/-- Calendar date, enough structure for the monthly-revenue report
(`$year`/`$month` extraction and range comparison). -/
structure DateTime where
  year : Int
  month : Nat
  day : Nat
deriving Repr, DecidableEq

/-- Lexicographic order on dates, mirroring BSON date comparison. -/
def DateTime.leb (a b : DateTime) : Bool :=
  if a.year ≠ b.year then a.year < b.year
  else if a.month ≠ b.month then a.month < b.month
  else a.day ≤ b.day

/-- Strict lexicographic order on dates. -/
def DateTime.ltb (a b : DateTime) : Bool :=
  if a.year ≠ b.year then a.year < b.year
  else if a.month ≠ b.month then a.month < b.month
  else a.day < b.day

/-- Insert into a list sorted by the boolean relation `le`
(element goes after every prefix element that is `le` it). -/
def insertS (le : α → α → Bool) (x : α) : List α → List α
  | [] => [x]
  | y :: ys => if le y x then y :: insertS le x ys else x :: y :: ys

/-- Insertion sort by a boolean relation; models a Mongo `$sort` stage
(the concrete order among ties is unspecified by Mongo, the sums and
memberships we prove are permutation-invariant). -/
def sortS (le : α → α → Bool) : List α → List α
  | [] => []
  | x :: xs => insertS le x (sortS le xs)

/-- `update_one` with a `$set`/`$inc` document: rewrite the first document
matching the filter, leave the rest untouched. -/
def updateFirst (p : α → Bool) (f : α → α) : List α → List α
  | [] => []
  | x :: xs => if p x then f x :: xs else x :: updateFirst p f xs

/-- `delete_one`: remove the first document matching the filter. -/
def deleteFirst (p : α → Bool) : List α → List α
  | [] => []
  | x :: xs => if p x then xs else x :: deleteFirst p xs

/-- Mongo `$avg`: null on an empty set of values, the mean otherwise. -/
def mongoAvg (l : List Rat) : Option Rat :=
  if l.isEmpty then none else some (l.sum / l.length)

/-- Mongo `$divide`: errors on a zero divisor. -/
def mongoDiv (a b : Rat) : Except String Rat :=
  if b = 0 then .error "cannot divide by zero" else .ok (a / b)

/-- Round a rational to an integer, half to even (Mongo `$round` semantics). -/
def roundHalfEven (q : Rat) : Int :=
  if q - ⌊q⌋ < 1/2 then ⌊q⌋
  else if q - ⌊q⌋ > 1/2 then ⌊q⌋ + 1
  else if Even ⌊q⌋ then ⌊q⌋ else ⌊q⌋ + 1

/-- Mongo `$round` to `d` decimal places. -/
def mongoRound (d : Nat) (q : Rat) : Rat :=
  (roundHalfEven (q * 10 ^ d) : Rat) / 10 ^ d

/-- Sequence a fallible map over a list, failing at the first error, the
way an aggregation pipeline aborts at the first failing document. -/
def mapExcept (f : α → Except ε β) : List α → Except ε (List β)
  | [] => .ok []
  | x :: xs =>
    match f x, mapExcept f xs with
    | .error e, _ => .error e
    | .ok _, .error e => .error e
    | .ok y, .ok ys => .ok (y :: ys)

/-! ## Record model (models.py)

Each entity has an in-memory form and a serialized dictionary form.  A field
read by `from_dict` through `dict.get` with a default is `Option`-typed in the
dictionary form, so a missing key is representable; `to_dict` always writes
every key.  The `datetime.now()` fallbacks of the constructors are passed in
as explicit `now` arguments. -/

/-- In-memory `Concert` (models.py). -/
structure Concert where
  name : String
  artist : String
  venue : String
  date : DateTime
  ticket_prices : List (String × Rat)
  total_seats : Int
  available_seats : Int
  created_at : Nat
deriving Repr, DecidableEq

/-- Dictionary form of a concert: `available_seats` and `created_at` are read
back with defaults, so they may be missing. -/
structure ConcertData where
  name : String
  artist : String
  venue : String
  date : DateTime
  ticket_prices : List (String × Rat)
  total_seats : Int
  available_seats : Option Int
  created_at : Option Nat
deriving Repr, DecidableEq

/-- `Concert.to_dict`. -/
def Concert.to_dict (c : Concert) : ConcertData :=
  { name := c.name, artist := c.artist, venue := c.venue, date := c.date,
    ticket_prices := c.ticket_prices, total_seats := c.total_seats,
    available_seats := some c.available_seats, created_at := some c.created_at }

/-- `Concert.from_dict`: the constructor sets `available_seats := total_seats`
and `created_at := now`, then both are overwritten from the dictionary when
present. -/
def Concert.from_dict (d : ConcertData) (now : Nat) : Concert :=
  { name := d.name, artist := d.artist, venue := d.venue, date := d.date,
    ticket_prices := d.ticket_prices, total_seats := d.total_seats,
    available_seats := d.available_seats.getD d.total_seats,
    created_at := d.created_at.getD now }

/-- In-memory `Customer` (models.py). -/
structure Customer where
  name : String
  email : String
  phone : String
  address : Option String
  created_at : Nat
deriving Repr, DecidableEq

/-- Dictionary form of a customer. -/
structure CustomerData where
  name : String
  email : String
  phone : String
  address : Option String
  created_at : Option Nat
deriving Repr, DecidableEq

/-- `Customer.to_dict`. -/
def Customer.to_dict (c : Customer) : CustomerData :=
  { name := c.name, email := c.email, phone := c.phone, address := c.address,
    created_at := some c.created_at }

/-- `Customer.from_dict`. -/
def Customer.from_dict (d : CustomerData) (now : Nat) : Customer :=
  { name := d.name, email := d.email, phone := d.phone,
    address := d.address, created_at := d.created_at.getD now }

/-- In-memory `Booking` (models.py). -/
structure Booking where
  customer_id : Nat
  concert_id : Nat
  ticket_type : String
  quantity : Int
  unit_price : Rat
  total_amount : Rat
  booking_date : DateTime
  status : String
deriving Repr, DecidableEq

/-- Dictionary form of a booking. -/
structure BookingData where
  customer_id : Nat
  concert_id : Nat
  ticket_type : String
  quantity : Int
  unit_price : Rat
  total_amount : Option Rat
  booking_date : Option DateTime
  status : Option String
deriving Repr, DecidableEq

/-- `Booking.to_dict`. -/
def Booking.to_dict (b : Booking) : BookingData :=
  { customer_id := b.customer_id, concert_id := b.concert_id,
    ticket_type := b.ticket_type, quantity := b.quantity,
    unit_price := b.unit_price, total_amount := some b.total_amount,
    booking_date := some b.booking_date, status := some b.status }

/-- `Booking.from_dict`: the constructor computes
`total_amount := quantity * unit_price`, sets `booking_date := now` and
`status := "confirmed"`, all three then overwritten from the dictionary when
present. -/
def Booking.from_dict (d : BookingData) (now : DateTime) : Booking :=
  { customer_id := d.customer_id, concert_id := d.concert_id,
    ticket_type := d.ticket_type, quantity := d.quantity,
    unit_price := d.unit_price,
    total_amount := d.total_amount.getD ((d.quantity : Rat) * d.unit_price),
    booking_date := d.booking_date.getD now,
    status := d.status.getD "confirmed" }

/-- In-memory `Invoice` (models.py). -/
structure Invoice where
  booking_id : Nat
  customer_id : Nat
  amount : Rat
  tax_amount : Rat
  total_amount : Rat
  issue_date : Nat
  payment_status : String
  payment_date : Option Nat
  invoice_number : String
deriving Repr, DecidableEq

/-- Dictionary form of an invoice. -/
structure InvoiceData where
  booking_id : Nat
  customer_id : Nat
  amount : Rat
  tax_amount : Option Rat
  total_amount : Option Rat
  issue_date : Option Nat
  payment_status : Option String
  payment_date : Option Nat
  invoice_number : Option String
deriving Repr, DecidableEq

/-- The generated invoice number `INV-<timestamp>`. -/
def invoiceNumber (now : Nat) : String :=
  "INV-" ++ toString now

/-- `Invoice.to_dict`. -/
def Invoice.to_dict (i : Invoice) : InvoiceData :=
  { booking_id := i.booking_id, customer_id := i.customer_id,
    amount := i.amount, tax_amount := some i.tax_amount,
    total_amount := some i.total_amount, issue_date := some i.issue_date,
    payment_status := some i.payment_status, payment_date := i.payment_date,
    invoice_number := some i.invoice_number }

/-- `Invoice.from_dict`: the constructor takes `tax_amount` defaulted to 0,
computes `total_amount := amount + tax_amount`, sets `issue_date := now`,
`payment_status := "pending"`, `payment_date := None` and a generated invoice
number; `from_dict` then overwrites all of the derived fields from the
dictionary when present. -/
def Invoice.from_dict (d : InvoiceData) (now : Nat) : Invoice :=
  let tax := d.tax_amount.getD 0
  { booking_id := d.booking_id, customer_id := d.customer_id,
    amount := d.amount, tax_amount := tax,
    total_amount := d.total_amount.getD (d.amount + tax),
    issue_date := d.issue_date.getD now,
    payment_status := d.payment_status.getD "pending",
    payment_date := d.payment_date,
    invoice_number := d.invoice_number.getD (invoiceNumber now) }

/-! ## Store documents and the CRUD layer (crud_operations.py)

The aggregation pipelines of analytics.py read the raw collection documents,
which carry the `models.py` field layout plus the Mongo `_id` (here `oid`). -/

/-- A stored concert document. -/
structure MConcert where
  oid : Nat
  name : String
  artist : String
  venue : String
  date : DateTime
  ticket_prices : List (String × Rat)
  total_seats : Int
  available_seats : Int
  created_at : Nat
deriving Repr, DecidableEq

/-- A stored customer document. -/
structure MCustomer where
  oid : Nat
  name : String
  email : String
  phone : String
  address : Option String
  created_at : Nat
deriving Repr, DecidableEq

/-- A stored booking document. -/
structure MBooking where
  oid : Nat
  customer_id : Nat
  concert_id : Nat
  ticket_type : String
  quantity : Int
  unit_price : Rat
  total_amount : Rat
  booking_date : DateTime
  status : String
deriving Repr, DecidableEq

/-- A stored invoice document. -/
structure MInvoice where
  oid : Nat
  booking_id : Nat
  customer_id : Nat
  amount : Rat
  tax_amount : Rat
  total_amount : Rat
  issue_date : Nat
  payment_status : String
  payment_date : Option Nat
  invoice_number : String
deriving Repr, DecidableEq

/-- The four collections of the store. -/
structure CrudDB where
  concerts : List MConcert
  customers : List MCustomer
  bookings : List MBooking
  invoices : List MInvoice
deriving Repr, DecidableEq

/-- `BookingCRUD.update_booking` specialised to the `$set` document of
`cancel_booking`: set `status` to cancelled on the first matching booking.
The returned flag is `modified_count > 0`: whether a stored document actually
changed. -/
def cancel_booking (db : CrudDB) (booking_id : Nat) : CrudDB × Bool :=
  let bookings := updateFirst (fun b => b.oid == booking_id)
    (fun b => { b with status := "cancelled" }) db.bookings
  ({ db with bookings := bookings }, decide (bookings ≠ db.bookings))

/-- `InvoiceCRUD.update_invoice` specialised to the `$set` document of
`mark_paid`: set `payment_status` to paid and `payment_date` on the first
matching invoice; flag is `modified_count > 0`. -/
def mark_paid (db : CrudDB) (invoice_id : Nat) (payment_date : Nat) :
    CrudDB × Bool :=
  let invoices := updateFirst (fun i => i.oid == invoice_id)
    (fun i => { i with payment_status := "paid",
                       payment_date := some payment_date }) db.invoices
  ({ db with invoices := invoices }, decide (invoices ≠ db.invoices))

/-! ## Flask mutation routes (app.py)

The web layer stores bookings in its own flat shape (`num_tickets`,
embedded customer contact fields, a flat `ticket_price` on the concert). -/

/-- A concert document as created by the `/concerts/add` route. -/
structure AConcert where
  oid : Nat
  name : String
  artist : String
  venue : String
  date : String
  time : String
  ticket_price : Rat
  total_seats : Int
  available_seats : Int
  genre : String
  description : String
deriving Repr, DecidableEq

/-- A booking document as created by the `/bookings/add` route. -/
structure ABooking where
  oid : Nat
  concert_id : Nat
  customer_name : String
  customer_email : String
  customer_phone : String
  num_tickets : Int
  ticket_price : Rat
  total_amount : Rat
  booking_date : Nat
  status : String
  updated_at : Option Nat
deriving Repr, DecidableEq

/-- The collections touched by the booking routes. -/
structure AppDB where
  concerts : List AConcert
  bookings : List ABooking
deriving Repr, DecidableEq

/-- Customer contact fields of the booking form. -/
structure BookingForm where
  customer_name : String
  customer_email : String
  customer_phone : String
deriving Repr, DecidableEq

/-- Outcome of a booking route. -/
inductive RouteResult where
  | notFound
  | insufficient
  | ok
  | err
deriving Repr, DecidableEq

/-- `add_booking` (app.py): look up the concert; reject when it is missing or
when `available_seats < num_tickets` (before any write); otherwise insert the
booking and `$inc` the concert's `available_seats` by `-num_tickets`. -/
def add_booking (db : AppDB) (concert_id : Nat) (num_tickets : Int)
    (form : BookingForm) (freshId : Nat) (now : Nat) : AppDB × RouteResult :=
  match db.concerts.find? (fun c => c.oid == concert_id) with
  | none => (db, .notFound)
  | some concert =>
    if concert.available_seats < num_tickets then (db, .insufficient)
    else
      let total_amount := concert.ticket_price * (num_tickets : Rat)
      let booking : ABooking :=
        { oid := freshId, concert_id := concert_id,
          customer_name := form.customer_name,
          customer_email := form.customer_email,
          customer_phone := form.customer_phone,
          num_tickets := num_tickets, ticket_price := concert.ticket_price,
          total_amount := total_amount, booking_date := now,
          status := "confirmed", updated_at := none }
      let db1 : AppDB := { db with bookings := db.bookings ++ [booking] }
      let concerts2 := updateFirst (fun c => c.oid == concert_id)
        (fun c => { c with available_seats := c.available_seats - num_tickets })
        db1.concerts
      ({ db1 with concerts := concerts2 }, .ok)

/-- `edit_booking` (app.py): look up the booking and its concert; with
`ticket_difference = new - old`, reject when the difference is positive and
exceeds `available_seats` (no write); otherwise `$set` the booking's new
fields and `$inc` the concert's `available_seats` by `-ticket_difference`.
A missing concert raises inside the handler before any write (`err`). -/
def edit_booking (db : AppDB) (booking_id : Nat) (new_num_tickets : Int)
    (form : BookingForm) (newStatus : String) (now : Nat) :
    AppDB × RouteResult :=
  match db.bookings.find? (fun b => b.oid == booking_id) with
  | none => (db, .notFound)
  | some booking =>
    match db.concerts.find? (fun c => c.oid == booking.concert_id) with
    | none => (db, .err)
    | some concert =>
      let ticket_difference := new_num_tickets - booking.num_tickets
      if ticket_difference > 0 ∧ concert.available_seats < ticket_difference
      then (db, .insufficient)
      else
        let new_total := concert.ticket_price * (new_num_tickets : Rat)
        let bookings2 := updateFirst (fun b => b.oid == booking_id)
          (fun b => { b with customer_name := form.customer_name,
                             customer_email := form.customer_email,
                             customer_phone := form.customer_phone,
                             num_tickets := new_num_tickets,
                             total_amount := new_total,
                             status := newStatus,
                             updated_at := some now }) db.bookings
        let concerts2 := updateFirst (fun c => c.oid == booking.concert_id)
          (fun c => { c with available_seats :=
                        c.available_seats - ticket_difference })
          db.concerts
        ({ db with bookings := bookings2, concerts := concerts2 }, .ok)

/-- `delete_booking` (app.py): look up the booking; delete it and `$inc` the
concert's `available_seats` by the deleted booking's `num_tickets`. -/
def delete_booking (db : AppDB) (booking_id : Nat) : AppDB × RouteResult :=
  match db.bookings.find? (fun b => b.oid == booking_id) with
  | none => (db, .notFound)
  | some booking =>
    let bookings2 := deleteFirst (fun b => b.oid == booking_id) db.bookings
    let concerts2 := updateFirst (fun c => c.oid == booking.concert_id)
      (fun c => { c with available_seats :=
                    c.available_seats + booking.num_tickets })
      db.concerts
    ({ db with bookings := bookings2, concerts := concerts2 }, .ok)

/-- One row of the concert-occupancy block of the `/analytics` route. -/
structure OccupancyRow where
  name : String
  artist : String
  venue : String
  date : String
  total_seats : Int
  available_seats : Int
  tickets_sold : Int
  occupancy_rate : Rat
deriving Repr, DecidableEq

/-- The concert-occupancy pipeline of the `/analytics` route (app.py):
for each concert, join its bookings, sum `num_tickets`, and compute the
occupancy with a `$cond` guard mapping `total_seats = 0` to occupancy 0,
rounded to one decimal; sorted by occupancy descending. -/
def concert_occupancy (db : AppDB) : List OccupancyRow :=
  sortS (fun a b => decide (b.occupancy_rate ≤ a.occupancy_rate))
    (db.concerts.map (fun c =>
      let sold : Int := ((db.bookings.filter
        (fun b => b.concert_id == c.oid)).map (fun b => b.num_tickets)).sum
      let rate : Rat := if c.total_seats = 0 then 0
        else (sold : Rat) / (c.total_seats : Rat) * 100
      { name := c.name, artist := c.artist, venue := c.venue, date := c.date,
        total_seats := c.total_seats,
        available_seats := c.total_seats - sold, tickets_sold := sold,
        occupancy_rate := mongoRound 1 rate }))

/-! ## Aggregation reports (analytics.py)

Each report is a pipeline over the raw collections, wrapped by a handler
that catches any store error (unreachable store, or a failing pipeline
stage such as `$divide` by zero), logs it and returns the empty list. -/

/-- The `$lookup` + `$unwind`(preserveNullAndEmptyArrays) of a concert against
the bookings on `concert_id`: one element per matching booking, or a single
element with no booking when there is no match. -/
def expandConcert (bookings : List MBooking) (c : MConcert) :
    List (MConcert × Option MBooking) :=
  match bookings.filter (fun b => b.concert_id == c.oid) with
  | [] => [(c, none)]
  | bs => bs.map (fun b => (c, some b))

/-- The unwound concert-booking pairs feeding the revenue-by-concert and
revenue-by-venue pipelines. -/
def unwoundConcerts (db : CrudDB) : List (MConcert × Option MBooking) :=
  db.concerts.flatMap (expandConcert db.bookings)

/-- `$sum` over the possibly-missing unwound booking's `total_amount`
(missing values count as 0). -/
def bookingAmount : Option MBooking → Rat
  | none => 0
  | some b => b.total_amount

/-- `$sum` over the possibly-missing unwound booking's `quantity`. -/
def bookingQty : Option MBooking → Int
  | none => 0
  | some b => b.quantity

/-- A `$group` row of the revenue-by-concert pipeline, before the
occupancy `$addFields` stage. -/
structure RevGroup where
  oid : Nat
  concert_name : String
  artist : String
  venue : String
  date : DateTime
  total_revenue : Rat
  tickets_sold : Int
  total_seats : Int
deriving Repr, DecidableEq

/-- A finished revenue-by-concert row. -/
structure RevenueRow where
  oid : Nat
  concert_name : String
  artist : String
  venue : String
  date : DateTime
  total_revenue : Rat
  tickets_sold : Int
  total_seats : Int
  occupancy_rate : Rat
deriving Repr, DecidableEq

/-- Group keys (`$group` on the concert `_id`) of the unwound pairs. -/
def revenueKeys (l : List (MConcert × Option MBooking)) : List Nat :=
  (l.map (fun x => x.1.oid)).dedup

/-- The members of one revenue group. -/
def revenueGroup (l : List (MConcert × Option MBooking)) (k : Nat) :
    List (MConcert × Option MBooking) :=
  l.filter (fun x => x.1.oid == k)

/-- Build the `$group` row for key `k`: `$first` of the concert fields,
`$sum` of the unwound booking amounts and quantities. -/
def revenueGroupRow (l : List (MConcert × Option MBooking)) (k : Nat) :
    Option RevGroup :=
  match revenueGroup l k with
  | [] => none
  | x :: xs => some
      { oid := k, concert_name := x.1.name, artist := x.1.artist,
        venue := x.1.venue, date := x.1.date,
        total_revenue := ((x :: xs).map (fun y => bookingAmount y.2)).sum,
        tickets_sold := ((x :: xs).map (fun y => bookingQty y.2)).sum,
        total_seats := x.1.total_seats }

/-- The occupancy `$addFields` stage: `$divide` (which fails on
`total_seats = 0`) times 100. -/
def addOccupancy (g : RevGroup) : Except String RevenueRow :=
  (mongoDiv (g.tickets_sold : Rat) (g.total_seats : Rat)).map (fun q =>
    { oid := g.oid, concert_name := g.concert_name, artist := g.artist,
      venue := g.venue, date := g.date, total_revenue := g.total_revenue,
      tickets_sold := g.tickets_sold, total_seats := g.total_seats,
      occupancy_rate := q * 100 })

/-- The success value of the occupancy stage on a group with nonzero
seats. -/
def occupancyRow (g : RevGroup) : RevenueRow :=
  { oid := g.oid, concert_name := g.concert_name, artist := g.artist,
    venue := g.venue, date := g.date, total_revenue := g.total_revenue,
    tickets_sold := g.tickets_sold, total_seats := g.total_seats,
    occupancy_rate := (g.tickets_sold : Rat) / (g.total_seats : Rat) * 100 }

/-- The revenue-by-concert pipeline of `get_revenue_by_concert`. -/
def revenue_by_concert_pipeline (db : CrudDB) :
    Except String (List RevenueRow) :=
  let unwound := unwoundConcerts db
  let groups := (revenueKeys unwound).filterMap (revenueGroupRow unwound)
  match mapExcept addOccupancy groups with
  | .error e => .error e
  | .ok rows =>
    .ok (sortS (fun a b => decide (b.total_revenue ≤ a.total_revenue)) rows)

/-- The shared `try`/`except PyMongoError` shape of every report method:
run the pipeline against the (possibly unreachable) store, and on any error
log it and return the empty list. -/
def runReport (msg : String) (pipe : CrudDB → Except String (List ρ))
    (db : Except String CrudDB) : List ρ × List String :=
  match db with
  | .error e => ([], [msg ++ e])
  | .ok d =>
    match pipe d with
    | .error e => ([], [msg ++ e])
    | .ok rows => (rows, [])

/-- `BillingAnalytics.get_revenue_by_concert`. -/
def get_revenue_by_concert (db : Except String CrudDB) :
    List RevenueRow × List String :=
  runReport "Error in revenue by concert aggregation: "
    revenue_by_concert_pipeline db

/-- A customer-statistics row. -/
structure CustomerStatsRow where
  oid : Nat
  name : String
  email : String
  phone : String
  total_bookings : Nat
  total_spent : Rat
  avg_booking_value : Option Rat
deriving Repr, DecidableEq

/-- The customer-statistics pipeline of `get_customer_booking_statistics`:
left-join each customer with its bookings, keep customers with at least one
booking, round the average to two decimals, sort by spend descending. -/
def customer_statistics_pipeline (db : CrudDB) :
    Except String (List CustomerStatsRow) :=
  let rows := (db.customers.map (fun cu =>
    let amounts := (db.bookings.filter
      (fun b => b.customer_id == cu.oid)).map (fun b => b.total_amount)
    { oid := cu.oid, name := cu.name, email := cu.email, phone := cu.phone,
      total_bookings := amounts.length, total_spent := amounts.sum,
      avg_booking_value := (mongoAvg amounts).map (mongoRound 2)
      : CustomerStatsRow })).filter (fun r => decide (0 < r.total_bookings))
  .ok (sortS (fun a b => decide (b.total_spent ≤ a.total_spent)) rows)

/-- `BillingAnalytics.get_customer_booking_statistics`. -/
def get_customer_booking_statistics (db : Except String CrudDB) :
    List CustomerStatsRow × List String :=
  runReport "Error in customer statistics aggregation: "
    customer_statistics_pipeline db

/-- A `$group` row of the popular-concerts pipeline. -/
structure PopGroup where
  oid : Nat
  total_tickets_sold : Int
  total_revenue : Rat
  unique_customers : List Nat
deriving Repr, DecidableEq

/-- A finished popular-concerts row. -/
structure PopularRow where
  oid : Nat
  concert_name : String
  artist : String
  venue : String
  date : DateTime
  total_tickets_sold : Int
  total_revenue : Rat
  unique_customers_count : Nat
deriving Repr, DecidableEq

/-- The `$group` stage of the popular-concerts pipeline: group the bookings
by `concert_id`, summing quantity and amount and collecting the set of
customers. -/
def popularGroups (bookings : List MBooking) : List PopGroup :=
  ((bookings.map (fun b => b.concert_id)).dedup).map (fun k =>
    let grp := bookings.filter (fun b => b.concert_id == k)
    { oid := k,
      total_tickets_sold := (grp.map (fun b => b.quantity)).sum,
      total_revenue := (grp.map (fun b => b.total_amount)).sum,
      unique_customers := (grp.map (fun b => b.customer_id)).dedup })

/-- The `$lookup` + inner `$unwind` + `$project` stages of the
popular-concerts pipeline: a group with no matching concert yields no row. -/
def popularRows (bookings : List MBooking) (concerts : List MConcert) :
    List PopularRow :=
  (popularGroups bookings).flatMap (fun g =>
    (concerts.filter (fun c => c.oid == g.oid)).map (fun c =>
      { oid := g.oid, concert_name := c.name, artist := c.artist,
        venue := c.venue, date := c.date,
        total_tickets_sold := g.total_tickets_sold,
        total_revenue := g.total_revenue,
        unique_customers_count := g.unique_customers.length }))

/-- The popular-concerts pipeline with its `$sort` and `$limit`. -/
def popular_concerts_pipeline (limit : Nat) (db : CrudDB) :
    Except String (List PopularRow) :=
  .ok ((sortS (fun a b => decide (b.total_tickets_sold ≤ a.total_tickets_sold))
    (popularRows db.bookings db.concerts)).take limit)

/-- `BillingAnalytics.get_popular_concerts`. -/
def get_popular_concerts (db : Except String CrudDB) (limit : Nat) :
    List PopularRow × List String :=
  runReport "Error in popular concerts aggregation: "
    (popular_concerts_pipeline limit) db

/-- A monthly-revenue row. -/
structure MonthlyRow where
  year : Int
  month : Nat
  month_name : String
  total_revenue : Rat
  total_bookings : Nat
  total_tickets : Int
  avg_booking_value : Option Rat
deriving Repr, DecidableEq

/-- The month-name array of the `$arrayElemAt` stage. -/
def monthNames : List String :=
  ["", "January", "February", "March", "April", "May", "June",
   "July", "August", "September", "October", "November", "December"]

/-- The monthly-revenue pipeline of `get_monthly_revenue_report`: keep the
bookings of the given year, group by (year, month) of the booking date, and
sort chronologically. -/
def monthly_revenue_pipeline (year : Int) (db : CrudDB) :
    Except String (List MonthlyRow) :=
  let matched := db.bookings.filter (fun b =>
    DateTime.leb ⟨year, 1, 1⟩ b.booking_date &&
    DateTime.ltb b.booking_date ⟨year + 1, 1, 1⟩)
  let keys := (matched.map
    (fun b => (b.booking_date.year, b.booking_date.month))).dedup
  let rows := keys.map (fun k =>
    let grp := matched.filter
      (fun b => (b.booking_date.year, b.booking_date.month) == k)
    { year := k.1, month := k.2, month_name := monthNames.getD k.2 "",
      total_revenue := (grp.map (fun b => b.total_amount)).sum,
      total_bookings := grp.length,
      total_tickets := (grp.map (fun b => b.quantity)).sum,
      avg_booking_value :=
        (mongoAvg (grp.map (fun b => b.total_amount))).map (mongoRound 2)
      : MonthlyRow })
  .ok (sortS (fun a b =>
    if a.year = b.year then decide (a.month ≤ b.month)
    else decide (a.year < b.year)) rows)

/-- `BillingAnalytics.get_monthly_revenue_report`. -/
def get_monthly_revenue_report (db : Except String CrudDB) (year : Int) :
    List MonthlyRow × List String :=
  runReport "Error in monthly revenue report aggregation: "
    (monthly_revenue_pipeline year) db

/-- A ticket-type-distribution row. -/
structure TicketTypeRow where
  ticket_type : String
  quantity_sold : Int
  total_revenue : Rat
  avg_price : Option Rat
  booking_count : Nat
deriving Repr, DecidableEq

/-- The ticket-type-distribution pipeline of `get_ticket_type_distribution`:
group the bookings by ticket type, sort by revenue descending. -/
def ticket_type_pipeline (db : CrudDB) : Except String (List TicketTypeRow) :=
  let keys := (db.bookings.map (fun b => b.ticket_type)).dedup
  let rows := keys.map (fun k =>
    let grp := db.bookings.filter (fun b => b.ticket_type == k)
    { ticket_type := k,
      quantity_sold := (grp.map (fun b => b.quantity)).sum,
      total_revenue := (grp.map (fun b => b.total_amount)).sum,
      avg_price := (mongoAvg (grp.map (fun b => b.unit_price))).map
        (mongoRound 2),
      booking_count := grp.length : TicketTypeRow })
  .ok (sortS (fun a b => decide (b.total_revenue ≤ a.total_revenue)) rows)

/-- `BillingAnalytics.get_ticket_type_distribution`. -/
def get_ticket_type_distribution (db : Except String CrudDB) :
    List TicketTypeRow × List String :=
  runReport "Error in ticket type distribution aggregation: "
    ticket_type_pipeline db

/-- A payment-status-summary row. -/
structure PaymentStatusRow where
  payment_status : String
  count : Nat
  total_amount : Rat
  avg_amount : Option Rat
deriving Repr, DecidableEq

/-- The payment-status pipeline of `get_payment_status_summary`: group the
invoices by payment status, sort by amount descending. -/
def payment_status_pipeline (db : CrudDB) :
    Except String (List PaymentStatusRow) :=
  let keys := (db.invoices.map (fun i => i.payment_status)).dedup
  let rows := keys.map (fun k =>
    let grp := db.invoices.filter (fun i => i.payment_status == k)
    { payment_status := k, count := grp.length,
      total_amount := (grp.map (fun i => i.total_amount)).sum,
      avg_amount := (mongoAvg (grp.map (fun i => i.total_amount))).map
        (mongoRound 2) : PaymentStatusRow })
  .ok (sortS (fun a b => decide (b.total_amount ≤ a.total_amount)) rows)

/-- `BillingAnalytics.get_payment_status_summary`. -/
def get_payment_status_summary (db : Except String CrudDB) :
    List PaymentStatusRow × List String :=
  runReport "Error in payment status summary aggregation: "
    payment_status_pipeline db

/-- A `$group` row of the revenue-by-venue pipeline. -/
structure VenueGroup where
  venue : String
  total_revenue : Rat
  total_concerts_count : Nat
  total_tickets_sold : Int
deriving Repr, DecidableEq

/-- A finished revenue-by-venue row. -/
structure VenueRow where
  venue : String
  total_revenue : Rat
  total_concerts_count : Nat
  total_tickets_sold : Int
  avg_revenue_per_concert : Rat
deriving Repr, DecidableEq

/-- The revenue-by-venue pipeline of `get_revenue_by_venue`: unwind the
concert-booking pairs, group by venue collecting the set of concert ids, and
project the unrounded `$divide` of revenue per concert. -/
def revenue_by_venue_pipeline (db : CrudDB) :
    Except String (List VenueRow) :=
  let unwound := unwoundConcerts db
  let keys := (unwound.map (fun x => x.1.venue)).dedup
  let groups := keys.map (fun k =>
    let grp := unwound.filter (fun x => x.1.venue == k)
    { venue := k,
      total_revenue := (grp.map (fun y => bookingAmount y.2)).sum,
      total_concerts_count := ((grp.map (fun x => x.1.oid)).dedup).length,
      total_tickets_sold := (grp.map (fun y => bookingQty y.2)).sum
      : VenueGroup })
  match mapExcept (fun g =>
    (mongoDiv g.total_revenue (g.total_concerts_count : Rat)).map (fun q =>
      { venue := g.venue, total_revenue := g.total_revenue,
        total_concerts_count := g.total_concerts_count,
        total_tickets_sold := g.total_tickets_sold,
        avg_revenue_per_concert := q : VenueRow })) groups with
  | .error e => .error e
  | .ok rows =>
    .ok (sortS (fun a b => decide (b.total_revenue ≤ a.total_revenue)) rows)

/-- `BillingAnalytics.get_revenue_by_venue`. -/
def get_revenue_by_venue (db : Except String CrudDB) :
    List VenueRow × List String :=
  runReport "Error in revenue by venue aggregation: "
    revenue_by_venue_pipeline db

/-- A `$group` row of the top-customers pipeline. -/
structure TopCustGroup where
  oid : Nat
  total_spent : Rat
  total_bookings : Nat
  total_tickets : Int
deriving Repr, DecidableEq

/-- A finished top-customers row. -/
structure TopCustomerRow where
  customer_name : String
  customer_email : String
  total_spent : Rat
  total_bookings : Nat
  total_tickets : Int
  avg_spending_per_booking : Rat
deriving Repr, DecidableEq

/-- The `$group` stage of the top-customers pipeline: group the bookings by
`customer_id`. -/
def topCustomerGroups (bookings : List MBooking) : List TopCustGroup :=
  ((bookings.map (fun b => b.customer_id)).dedup).map (fun k =>
    let grp := bookings.filter (fun b => b.customer_id == k)
    { oid := k,
      total_spent := (grp.map (fun b => b.total_amount)).sum,
      total_bookings := grp.length,
      total_tickets := (grp.map (fun b => b.quantity)).sum })

/-- The `$lookup` + inner `$unwind` of the top-customers pipeline: a group
whose customer does not exist yields no pair. -/
def topCustomerJoined (bookings : List MBooking) (customers : List MCustomer) :
    List (TopCustGroup × MCustomer) :=
  (topCustomerGroups bookings).flatMap (fun g =>
    (customers.filter (fun cu => cu.oid == g.oid)).map (fun cu => (g, cu)))

/-- The top-customers pipeline with its `$project` (a `$divide` of spend per
booking), `$sort` and `$limit`. -/
def top_customers_pipeline (limit : Nat) (db : CrudDB) :
    Except String (List TopCustomerRow) :=
  match mapExcept (fun p =>
    (mongoDiv p.1.total_spent (p.1.total_bookings : Rat)).map (fun q =>
      { customer_name := p.2.name, customer_email := p.2.email,
        total_spent := p.1.total_spent, total_bookings := p.1.total_bookings,
        total_tickets := p.1.total_tickets,
        avg_spending_per_booking := q : TopCustomerRow }))
    (topCustomerJoined db.bookings db.customers) with
  | .error e => .error e
  | .ok rows =>
    .ok ((sortS (fun a b => decide (b.total_spent ≤ a.total_spent))
      rows).take limit)

/-- `BillingAnalytics.get_top_customers_by_spending`. -/
def get_top_customers_by_spending (db : Except String CrudDB) (limit : Nat) :
    List TopCustomerRow × List String :=
  runReport "Error in top customers aggregation: "
    (top_customers_pipeline limit) db

/-- Concert document used by the concrete app-level scenarios. -/
def exAConcert : AConcert :=
  { oid := 1, name := "Rock Night", artist := "Band", venue := "Hall",
    date := "2025-06-01", time := "19:00", ticket_price := 50,
    total_seats := 10, available_seats := 10, genre := "rock",
    description := "" }

/-- Booking document used by the concrete app-level scenarios. -/
def exABooking : ABooking :=
  { oid := 2, concert_id := 1, customer_name := "N",
    customer_email := "n@mail", customer_phone := "123", num_tickets := 2,
    ticket_price := 50, total_amount := 100, booking_date := 0,
    status := "confirmed", updated_at := none }

/-- App-level state used by the concrete scenarios. -/
def exAppDB : AppDB := { concerts := [exAConcert], bookings := [exABooking] }

/-- Booking form used by the concrete scenarios. -/
def exForm : BookingForm :=
  { customer_name := "N", customer_email := "n@mail",
    customer_phone := "123" }

/-- Concert document of the cancel counterexample. -/
def c3Concert : MConcert :=
  { oid := 1, name := "C", artist := "A", venue := "V",
    date := ⟨2025, 6, 1⟩, ticket_prices := [("General", 50)],
    total_seats := 10, available_seats := 7, created_at := 0 }

/-- Confirmed quantity-3 booking of the cancel counterexample. -/
def c3Booking : MBooking :=
  { oid := 10, customer_id := 5, concert_id := 1, ticket_type := "General",
    quantity := 3, unit_price := 50, total_amount := 150,
    booking_date := ⟨2025, 6, 1⟩, status := "confirmed" }

/-- Store state of the cancel counterexample. -/
def c3db : CrudDB :=
  { concerts := [c3Concert], customers := [], bookings := [c3Booking],
    invoices := [] }

/-- Invoice already paid on date 5, for the mark-paid scenarios. -/
def c8Invoice : MInvoice :=
  { oid := 1, booking_id := 2, customer_id := 3, amount := 100,
    tax_amount := 8, total_amount := 108, issue_date := 0,
    payment_status := "paid", payment_date := some 5,
    invoice_number := "INV-1" }

/-- Store state of the mark-paid scenarios. -/
def c8db : CrudDB :=
  { concerts := [], customers := [], bookings := [],
    invoices := [c8Invoice] }

/-- Concert with zero seats, for the occupancy boundary scenario. -/
def c1ZeroConcert : MConcert :=
  { oid := 1, name := "Empty", artist := "A", venue := "V",
    date := ⟨2025, 1, 1⟩, ticket_prices := [], total_seats := 0,
    available_seats := 0, created_at := 0 }

/-- Store with a single zero-seat concert. -/
def c1ZeroDB : CrudDB :=
  { concerts := [c1ZeroConcert], customers := [], bookings := [],
    invoices := [] }

/-- Booking whose concert exists but has zero seats. -/
def c2Booking : MBooking :=
  { oid := 11, customer_id := 5, concert_id := 1, ticket_type := "General",
    quantity := 3, unit_price := 50, total_amount := 150,
    booking_date := ⟨2025, 1, 2⟩, status := "confirmed" }

/-- Store where every booking's concert exists, yet the report loses the
revenue. -/
def c2BadDB : CrudDB :=
  { concerts := [c1ZeroConcert], customers := [], bookings := [c2Booking],
    invoices := [] }

theorem insertS_perm (le : α → α → Bool) (x : α) :
    ∀ l : List α, List.Perm (insertS le x l) (x :: l) := by
  intro l
  induction l with
  | nil => simp [insertS]
  | cons y ys ih =>
    by_cases h : le y x = true
    · simpa [insertS, h] using ((ih.cons y).trans (List.Perm.swap x y ys))
    · simp [insertS, h]

theorem sortS_perm (le : α → α → Bool) : ∀ l : List α, List.Perm (sortS le l) l := by
  intro l
  induction l with
  | nil => simp [sortS]
  | cons x xs ih => exact (insertS_perm le x (sortS le xs)).trans (ih.cons x)

theorem find?_updateFirst (p : α → Bool) (f : α → α)
    (hp : ∀ a, p (f a) = p a) :
    ∀ l : List α, (updateFirst p f l).find? p = (l.find? p).map f := by
  intro l
  induction l with
  | nil => simp [updateFirst]
  | cons x xs ih =>
    by_cases h : p x = true
    · simp [updateFirst, h, List.find?_cons, hp]
    · simp only [Bool.not_eq_true] at h
      simp [updateFirst, h, List.find?_cons, hp, ih]

theorem updateFirst_eq_self (p : α → Bool) (f : α → α) :
    ∀ l : List α, ∀ x, l.find? p = some x → f x = x → updateFirst p f l = l := by
  intro l
  induction l with
  | nil => intro x hx; simp at hx
  | cons y ys ih =>
    intro x hx hfx
    by_cases h : p y = true
    · rw [List.find?_cons_of_pos _ h] at hx
      cases hx
      simp [updateFirst, h, hfx]
    · simp only [Bool.not_eq_true] at h
      rw [List.find?_cons_of_neg _ (by simp [h])] at hx
      simp [updateFirst, h, ih x hx hfx]

/-! ## General list lemmas used by the report proofs -/

theorem sum_map_add_rat (g h : α → Rat) :
    ∀ l : List α, (l.map (fun x => g x + h x)).sum = (l.map g).sum + (l.map h).sum := by
  intro l
  induction l with
  | nil => simp
  | cons x xs ih => simp [ih]; ring

theorem sum_map_ite_of_not_mem [DecidableEq α] (a : α) (c : Rat) :
    ∀ ks : List α, a ∉ ks → (ks.map (fun k => if a = k then c else 0)).sum = 0 := by
  intro ks
  induction ks with
  | nil => simp
  | cons k ks ih =>
    intro ha
    have h1 : a ≠ k := fun h => ha (h ▸ List.mem_cons_self k ks)
    have h2 : a ∉ ks := fun h => ha (List.mem_cons_of_mem k h)
    simp [h1, ih h2]

theorem sum_map_ite_of_nodup [DecidableEq α] (a : α) (c : Rat) :
    ∀ ks : List α, ks.Nodup → a ∈ ks →
    (ks.map (fun k => if a = k then c else 0)).sum = c := by
  intro ks
  induction ks with
  | nil => intro _ ha; simp at ha
  | cons k ks ih =>
    intro hnd ha
    rcases List.mem_cons.mp ha with h | h
    · subst h
      have : a ∉ ks := (List.nodup_cons.mp hnd).1
      simp [sum_map_ite_of_not_mem a c ks this]
    · have hne : a ≠ k := by
        intro he
        exact (List.nodup_cons.mp hnd).1 (he ▸ h)
      simp [hne, ih (List.nodup_cons.mp hnd).2 h]

/-- Summing group-by-group over a duplicate-free key list that covers every
element gives the total sum. -/
theorem sum_groups [DecidableEq α] (key : β → α) (f : β → Rat) (ks : List α)
    (hnd : ks.Nodup) :
    ∀ l : List β, (∀ b ∈ l, key b ∈ ks) →
    (ks.map (fun k => ((l.filter (fun b => key b == k)).map f).sum)).sum =
      (l.map f).sum := by
  intro l
  induction l with
  | nil => simp
  | cons b l ih =>
    intro hcov
    have hcov2 : ∀ x ∈ l, key x ∈ ks := fun x hx =>
      hcov x (List.mem_cons_of_mem b hx)
    have hbk : key b ∈ ks := hcov b (List.mem_cons_self b l)
    have hsplit : ∀ k ∈ ks,
        (((b :: l).filter (fun x => key x == k)).map f).sum =
        (if key b = k then f b else 0) +
          ((l.filter (fun x => key x == k)).map f).sum := by
      intro k _
      by_cases hk : key b = k
      · simp [List.filter_cons, hk]
      · simp [List.filter_cons, hk]
    rw [List.map_congr_left hsplit, sum_map_add_rat,
        sum_map_ite_of_nodup (key b) (f b) ks hnd hbk, ih hcov2]
    simp

theorem sum_map_flatMap (g : α → List β) (f : β → Rat) :
    ∀ l : List α, ((l.flatMap g).map f).sum =
      (l.map (fun x => ((g x).map f).sum)).sum := by
  intro l
  induction l with
  | nil => simp
  | cons x xs ih => simp [List.flatMap_cons, ih]

theorem sum_map_filterMap (g : α → Option ρ) (v : ρ → Rat) (w : α → Rat) :
    ∀ ks : List α, (∀ k ∈ ks, ∃ r, g k = some r ∧ v r = w k) →
    ((ks.filterMap g).map v).sum = (ks.map w).sum := by
  intro ks
  induction ks with
  | nil => simp
  | cons k ks ih =>
    intro h
    obtain ⟨r, hr, hvr⟩ := h k (List.mem_cons_self k ks)
    have := ih (fun a ha => h a (List.mem_cons_of_mem k ha))
    rw [List.filterMap_cons]
    simp [hr, this, hvr]

theorem mapExcept_ok (f : α → Except ε β) (g : α → β) :
    ∀ l : List α, (∀ x ∈ l, f x = .ok (g x)) →
    mapExcept f l = .ok (l.map g) := by
  intro l
  induction l with
  | nil => intro _; rfl
  | cons x xs ih =>
    intro h
    have hx := h x (List.mem_cons_self x xs)
    have hxs := ih (fun a ha => h a (List.mem_cons_of_mem x ha))
    simp [mapExcept, hx, hxs]

theorem dedup_filter [DecidableEq α] (q : α → Bool) :
    ∀ ks : List α, (ks.filter q).dedup = ks.dedup.filter q := by
  intro ks
  induction ks with
  | nil => simp
  | cons k ks ih =>
    by_cases hq : q k = true
    · rw [List.filter_cons_of_pos hq]
      by_cases hm : k ∈ ks
      · have hmf : k ∈ ks.filter q := List.mem_filter.mpr ⟨hm, hq⟩
        rw [List.dedup_cons_of_mem hmf, List.dedup_cons_of_mem hm, ih]
      · have hmf : k ∉ ks.filter q := fun h => hm (List.mem_filter.mp h).1
        rw [List.dedup_cons_of_not_mem hmf, List.dedup_cons_of_not_mem hm,
            List.filter_cons_of_pos hq, ih]
    · have hq2 : q k = false := by
        cases h : q k
        · rfl
        · exact absurd h hq
      rw [List.filter_cons_of_neg (by simp [hq2])]
      by_cases hm : k ∈ ks
      · rw [List.dedup_cons_of_mem hm, ih]
      · rw [List.dedup_cons_of_not_mem hm,
            List.filter_cons_of_neg (by simp [hq2]), ih]

theorem flatMap_congr (f g : α → List β) :
    ∀ l : List α, (∀ x ∈ l, f x = g x) → l.flatMap f = l.flatMap g := by
  intro l
  induction l with
  | nil => intro _; rfl
  | cons x xs ih =>
    intro h
    simp only [List.flatMap_cons]
    rw [h x (List.mem_cons_self x xs),
        ih (fun a ha => h a (List.mem_cons_of_mem x ha))]

theorem flatMap_filter_keys (q : α → Bool) (h : α → List ρ)
    (hnil : ∀ k, q k = false → h k = []) :
    ∀ ks : List α, (ks.filter q).flatMap h = ks.flatMap h := by
  intro ks
  induction ks with
  | nil => rfl
  | cons k ks ih =>
    by_cases hq : q k = true
    · rw [List.filter_cons_of_pos hq]
      simp only [List.flatMap_cons, ih]
    · have hq2 : q k = false := by
        cases h2 : q k
        · rfl
        · exact absurd h2 hq
      rw [List.filter_cons_of_neg (by simp [hq2])]
      simp only [List.flatMap_cons, hnil k hq2, List.nil_append, ih]

theorem flatMap_map (f : α → γ) (h : γ → List ρ) :
    ∀ ks : List α, (ks.map f).flatMap h = ks.flatMap (fun k => h (f k)) := by
  intro ks
  induction ks with
  | nil => rfl
  | cons k ks ih => simp only [List.map_cons, List.flatMap_cons, ih]

/-! ## Claim C6: serialization round-trips -/

/-- Claim C6: deserializing the serialized form of any Concert, Customer,
Booking or Invoice yields an entity equal to the original in every field,
including optional and defaulted fields (the `now` fallbacks are never
consulted because `to_dict` writes every key). -/
theorem c6_round_trip :
    (∀ (c : Concert) (now : Nat), Concert.from_dict (Concert.to_dict c) now = c) ∧
    (∀ (c : Customer) (now : Nat), Customer.from_dict (Customer.to_dict c) now = c) ∧
    (∀ (b : Booking) (now : DateTime), Booking.from_dict (Booking.to_dict b) now = b) ∧
    (∀ (i : Invoice) (now : Nat), Invoice.from_dict (Invoice.to_dict i) now = i) :=
  ⟨fun _ _ => rfl, fun _ _ => rfl, fun _ _ => rfl, fun _ _ => rfl⟩

/-! ## Claim C9: deterministic defaults for missing optional fields -/

/-- Claim C9: a concert document missing `available_seats` deserializes with
`available_seats = total_seats`, and an invoice document missing `tax_amount`
deserializes with `tax_amount = 0`. -/
theorem c9_missing_field_defaults :
    (∀ (d : ConcertData) (now : Nat),
       (Concert.from_dict { d with available_seats := none } now).available_seats
         = d.total_seats) ∧
    (∀ (d : InvoiceData) (now : Nat),
       (Invoice.from_dict { d with tax_amount := none } now).tax_amount = 0) :=
  ⟨fun _ _ => rfl, fun _ _ => rfl⟩

/-! ## Claim C7: reports degrade to empty results on store failure -/

/-- Claim C7: when reaching the store fails, each of the eight report
functions returns the empty list together with a logged error message,
never propagating the failure. -/
theorem c7_reports_degrade_on_store_failure : ∀ e : String,
    get_revenue_by_concert (.error e) =
      ([], ["Error in revenue by concert aggregation: " ++ e]) ∧
    get_customer_booking_statistics (.error e) =
      ([], ["Error in customer statistics aggregation: " ++ e]) ∧
    (∀ limit, get_popular_concerts (.error e) limit =
      ([], ["Error in popular concerts aggregation: " ++ e])) ∧
    (∀ year, get_monthly_revenue_report (.error e) year =
      ([], ["Error in monthly revenue report aggregation: " ++ e])) ∧
    get_ticket_type_distribution (.error e) =
      ([], ["Error in ticket type distribution aggregation: " ++ e]) ∧
    get_payment_status_summary (.error e) =
      ([], ["Error in payment status summary aggregation: " ++ e]) ∧
    get_revenue_by_venue (.error e) =
      ([], ["Error in revenue by venue aggregation: " ++ e]) ∧
    (∀ limit, get_top_customers_by_spending (.error e) limit =
      ([], ["Error in top customers aggregation: " ++ e])) :=
  fun _ => ⟨rfl, rfl, fun _ => rfl, fun _ => rfl, rfl, rfl, rfl, fun _ => rfl⟩

/-! ## Claims C3, C4, C5, C8: booking and invoice mutations -/

/-- Claim C4: on booking creation, a request whose quantity exceeds the
concert's current `available_seats` is rejected with the insufficient-seats
signal before any write; otherwise the booking is persisted and the concert's
`available_seats` is decremented by the requested quantity. -/
theorem c4_add_booking (db : AppDB) (concert_id : Nat) (num_tickets : Int)
    (form : BookingForm) (freshId now : Nat) (c : AConcert)
    (hc : db.concerts.find? (fun x => x.oid == concert_id) = some c) :
    (c.available_seats < num_tickets →
       add_booking db concert_id num_tickets form freshId now =
         (db, .insufficient)) ∧
    (¬ c.available_seats < num_tickets →
       (add_booking db concert_id num_tickets form freshId now).2 = .ok ∧
       (add_booking db concert_id num_tickets form freshId now).1.bookings =
         db.bookings ++ [{ oid := freshId, concert_id := concert_id, customer_name := form.customer_name, customer_email := form.customer_email, customer_phone := form.customer_phone, num_tickets := num_tickets, ticket_price := c.ticket_price, total_amount := c.ticket_price * (num_tickets : Rat), booking_date := now, status := "confirmed", updated_at := none }] ∧
       (add_booking db concert_id num_tickets form freshId now).1.concerts.find?
           (fun x => x.oid == concert_id) =
         some { c with available_seats := c.available_seats - num_tickets }) := by
  constructor
  · intro h
    simp only [add_booking, hc, if_pos h]
  · intro h
    simp only [add_booking, hc, if_neg h]
    refine ⟨trivial, trivial, ?_⟩
    rw [find?_updateFirst (fun x : AConcert => x.oid == concert_id)
      (fun x => { x with available_seats := x.available_seats - num_tickets })
      (fun a => rfl) db.concerts, hc]
    rfl

/-- Claim C5: editing a booking's quantity with
`delta = new_quantity - old_quantity` is rejected without mutating either
record when `delta > 0` exceeds `available_seats`; otherwise the booking is
updated and `available_seats` decreases by `delta`. -/
theorem c5_edit_booking (db : AppDB) (booking_id : Nat) (new_num : Int)
    (form : BookingForm) (st : String) (now : Nat) (b : ABooking) (c : AConcert)
    (hb : db.bookings.find? (fun x => x.oid == booking_id) = some b)
    (hc : db.concerts.find? (fun x => x.oid == b.concert_id) = some c) :
    (new_num - b.num_tickets > 0 ∧
       c.available_seats < new_num - b.num_tickets →
       edit_booking db booking_id new_num form st now = (db, .insufficient)) ∧
    (¬ (new_num - b.num_tickets > 0 ∧
        c.available_seats < new_num - b.num_tickets) →
       (edit_booking db booking_id new_num form st now).2 = .ok ∧
       (edit_booking db booking_id new_num form st now).1.bookings.find?
           (fun x => x.oid == booking_id) =
         some { b with customer_name := form.customer_name, customer_email := form.customer_email, customer_phone := form.customer_phone, num_tickets := new_num, total_amount := c.ticket_price * (new_num : Rat), status := st, updated_at := some now } ∧
       (edit_booking db booking_id new_num form st now).1.concerts.find?
           (fun x => x.oid == b.concert_id) =
         some { c with available_seats := c.available_seats - (new_num - b.num_tickets) }) := by
  constructor
  · intro h
    simp only [edit_booking, hb, hc, if_pos h]
  · intro h
    simp only [edit_booking, hb, hc, if_neg h]
    refine ⟨trivial, ?_, ?_⟩
    · rw [find?_updateFirst (fun x : ABooking => x.oid == booking_id)
        (fun x => { x with customer_name := form.customer_name, customer_email := form.customer_email, customer_phone := form.customer_phone, num_tickets := new_num, total_amount := c.ticket_price * (new_num : Rat), status := st, updated_at := some now })
        (fun a => rfl) db.bookings, hb]
      rfl
    · rw [find?_updateFirst (fun x : AConcert => x.oid == b.concert_id)
        (fun x => { x with available_seats := x.available_seats - (new_num - b.num_tickets) })
        (fun a => rfl) db.concerts, hc]
      rfl

/-- Claim C3 (amended): deleting a booking through the web route restores the
owning concert's `available_seats` by exactly the `num_tickets` the booking
holds at deletion time; but `BookingCRUD.cancel_booking` only sets the
booking's status and leaves the concerts collection untouched, restoring
nothing. -/
theorem c3_delete_restores_cancel_does_not :
    (∀ (db : AppDB) (id : Nat) (b : ABooking) (c : AConcert),
       db.bookings.find? (fun x => x.oid == id) = some b →
       db.concerts.find? (fun x => x.oid == b.concert_id) = some c →
       (delete_booking db id).2 = .ok ∧
       (delete_booking db id).1.concerts.find?
           (fun x => x.oid == b.concert_id) =
         some { c with available_seats := c.available_seats + b.num_tickets }) ∧
    (∀ (db : CrudDB) (id : Nat),
       (cancel_booking db id).1.concerts = db.concerts) := by
  constructor
  · intro db id b c hb hc
    simp only [delete_booking, hb]
    refine ⟨trivial, ?_⟩
    rw [find?_updateFirst (fun x : AConcert => x.oid == b.concert_id)
      (fun x => { x with available_seats := x.available_seats + b.num_tickets })
      (fun a => rfl) db.concerts, hc]
    rfl
  · intro db id
    rfl

/-- Witness for C4 at a concrete state: 3 tickets against 10 available seats
are accepted. -/
theorem c4_witness : (add_booking exAppDB 1 3 exForm 99 7).2 = .ok :=
  ((c4_add_booking exAppDB 1 3 exForm 99 7 exAConcert rfl).2 (by decide)).1

/-- Witness for C5 at a concrete state: editing a quantity-2 booking to 5
with 10 seats available succeeds. -/
theorem c5_witness :
    (edit_booking exAppDB 2 5 exForm "confirmed" 8).2 = .ok :=
  ((c5_edit_booking exAppDB 2 5 exForm "confirmed" 8 exABooking exAConcert
    rfl rfl).2 (by decide)).1

/-- Witness for C3 at a concrete state: deleting the stored booking
succeeds. -/
theorem c3_witness : (delete_booking exAppDB 2).2 = .ok :=
  (c3_delete_restores_cancel_does_not.1 exAppDB 2 exABooking exAConcert
    rfl rfl).1

/-- Counterexample for C3 as stated: cancelling the stored quantity-3 booking
through `BookingCRUD.cancel_booking` does mark it cancelled, yet the owning
concert's `available_seats` stays at 7 instead of increasing by 3. -/
theorem c3_counterexample :
    (cancel_booking c3db 10).2 = true ∧
    (cancel_booking c3db 10).1.bookings.map (fun b => b.status) =
      ["cancelled"] ∧
    (cancel_booking c3db 10).1.concerts.map (fun x => x.available_seats) =
      [7] ∧
    c3db.concerts.map (fun x => x.available_seats) = [7] ∧
    c3db.bookings.map (fun b => b.quantity) = [3] := by
  decide

/-- Claim C8 (amended): `mark_paid` always leaves the stored invoice with
`payment_status = "paid"` and the supplied `payment_date`; reapplying it with
the same `payment_date` is a no-op returning `false`, but a later call with a
different date overwrites the stored `payment_date` (see the
counterexample). -/
theorem c8_mark_paid (db : CrudDB) (id pd : Nat) (inv : MInvoice)
    (hi : db.invoices.find? (fun x => x.oid == id) = some inv) :
    (mark_paid db id pd).1.invoices.find? (fun x => x.oid == id) =
      some { inv with payment_status := "paid", payment_date := some pd } ∧
    (inv.payment_status = "paid" → inv.payment_date = some pd →
       mark_paid db id pd = (db, false)) := by
  constructor
  · simp only [mark_paid]
    rw [find?_updateFirst (fun x : MInvoice => x.oid == id)
      (fun x => { x with payment_status := "paid", payment_date := some pd })
      (fun a => rfl) db.invoices, hi]
    rfl
  · intro h1 h2
    have hfix : (fun i : MInvoice =>
        { i with payment_status := "paid", payment_date := some pd }) inv
          = inv := by
      cases inv
      simp only [MInvoice.mk.injEq] at h1 h2 ⊢
      simp_all
    unfold mark_paid
    rw [updateFirst_eq_self _ _ db.invoices inv hi hfix]
    simp

/-- Witness for C8 at a concrete state: re-marking the invoice paid with the
same payment date leaves the store unchanged and reports no modification. -/
theorem c8_witness : mark_paid c8db 1 5 = (c8db, false) :=
  (c8_mark_paid c8db 1 5 c8Invoice rfl).2 rfl rfl

/-- Counterexample for C8 as stated: re-marking an already-paid invoice with
a different date is not a no-op; the stored `payment_date` moves from 5
to 7 and the update reports a modification. -/
theorem c8_counterexample :
    (mark_paid c8db 1 7).1 ≠ c8db ∧
    (mark_paid c8db 1 7).2 = true ∧
    (mark_paid c8db 1 7).1.invoices.map (fun i => i.payment_date) =
      [some 7] ∧
    c8db.invoices.map (fun i => i.payment_status) = ["paid"] := by
  decide

/-! ## Structure of the revenue-by-concert pipeline -/

theorem expandConcert_fst (bookings : List MBooking) (c : MConcert) :
    ∀ x ∈ expandConcert bookings c, x.1 = c := by
  intro x hx
  unfold expandConcert at hx
  cases hfl : bookings.filter (fun b => b.concert_id == c.oid) with
  | nil =>
    rw [hfl] at hx
    simp at hx
    simp [hx]
  | cons b bs =>
    rw [hfl] at hx
    obtain ⟨y, _, hxy⟩ := List.mem_map.mp hx
    simp [← hxy]

theorem mem_unwound_fst (db : CrudDB) :
    ∀ x ∈ unwoundConcerts db, x.1 ∈ db.concerts := by
  intro x hx
  unfold unwoundConcerts at hx
  obtain ⟨c, hc, hxc⟩ := List.mem_flatMap.mp hx
  rw [expandConcert_fst db.bookings c x hxc]
  exact hc

theorem expandConcert_self_mem (bookings : List MBooking) (c : MConcert) :
    ∃ mb, (c, mb) ∈ expandConcert bookings c := by
  unfold expandConcert
  cases hfl : bookings.filter (fun b => b.concert_id == c.oid) with
  | nil => exact ⟨none, by simp⟩
  | cons b bs => exact ⟨some b, List.mem_map_of_mem _ (List.mem_cons_self b bs)⟩

theorem expandConcert_amount_sum (bookings : List MBooking) (c : MConcert) :
    ((expandConcert bookings c).map (fun y => bookingAmount y.2)).sum =
      ((bookings.filter (fun b => b.concert_id == c.oid)).map
        (fun b => b.total_amount)).sum := by
  unfold expandConcert
  cases hfl : bookings.filter (fun b => b.concert_id == c.oid) with
  | nil => simp [bookingAmount]
  | cons b bs =>
    rw [List.map_map]
    rfl

theorem addOccupancy_ok (g : RevGroup) (h : g.total_seats ≠ 0) :
    addOccupancy g = .ok (occupancyRow g) := by
  have hcast : (g.total_seats : Rat) ≠ 0 := Int.cast_ne_zero.mpr h
  simp [addOccupancy, mongoDiv, hcast, occupancyRow, Except.map]

theorem revenueGroupRow_total_seats (l : List (MConcert × Option MBooking))
    (k : Nat) (g : RevGroup) (hg : revenueGroupRow l k = some g) :
    ∃ x ∈ l, g.total_seats = x.1.total_seats := by
  cases hgr : revenueGroup l k with
  | nil => simp [revenueGroupRow, hgr] at hg
  | cons x xs =>
    simp only [revenueGroupRow, hgr] at hg
    refine ⟨x, ?_, ?_⟩
    · have hx : x ∈ revenueGroup l k := by
        rw [hgr]; exact List.mem_cons_self x xs
      exact (List.mem_filter.mp hx).1
    · cases hg
      rfl

theorem revenueGroup_ne_nil (l : List (MConcert × Option MBooking)) (k : Nat)
    (hk : k ∈ revenueKeys l) : ∃ x xs, revenueGroup l k = x :: xs := by
  unfold revenueKeys at hk
  obtain ⟨x, hx, hkey⟩ := List.mem_map.mp (List.mem_dedup.mp hk)
  have hmem : x ∈ revenueGroup l k :=
    List.mem_filter.mpr ⟨hx, by simp [hkey]⟩
  cases hgr : revenueGroup l k with
  | nil => rw [hgr] at hmem; simp at hmem
  | cons y ys => exact ⟨y, ys, rfl⟩

theorem revenueGroupRow_revenue (l : List (MConcert × Option MBooking))
    (k : Nat) (hk : k ∈ revenueKeys l) :
    ∃ g, revenueGroupRow l k = some g ∧ g.oid = k ∧
      g.total_revenue =
        ((revenueGroup l k).map (fun y => bookingAmount y.2)).sum := by
  obtain ⟨x, xs, hgr⟩ := revenueGroup_ne_nil l k hk
  refine ⟨{ oid := k, concert_name := x.1.name, artist := x.1.artist, venue := x.1.venue, date := x.1.date, total_revenue := ((x :: xs).map (fun y => bookingAmount y.2)).sum, tickets_sold := ((x :: xs).map (fun y => bookingQty y.2)).sum, total_seats := x.1.total_seats }, ?_, rfl, ?_⟩
  · simp only [revenueGroupRow, hgr]
  · rw [hgr]

theorem revenue_pipeline_ok (db : CrudDB)
    (h3 : ∀ c ∈ db.concerts, c.total_seats ≠ 0) :
    revenue_by_concert_pipeline db =
      .ok (sortS (fun a b => decide (b.total_revenue ≤ a.total_revenue))
        (((revenueKeys (unwoundConcerts db)).filterMap
          (revenueGroupRow (unwoundConcerts db))).map occupancyRow)) := by
  have hok : mapExcept addOccupancy
      ((revenueKeys (unwoundConcerts db)).filterMap
        (revenueGroupRow (unwoundConcerts db))) =
      .ok ((((revenueKeys (unwoundConcerts db)).filterMap
        (revenueGroupRow (unwoundConcerts db)))).map occupancyRow) := by
    apply mapExcept_ok
    intro g hg
    apply addOccupancy_ok
    obtain ⟨k, _, hgk⟩ := List.mem_filterMap.mp hg
    obtain ⟨x, hxmem, hxseats⟩ :=
      revenueGroupRow_total_seats (unwoundConcerts db) k g hgk
    rw [hxseats]
    exact h3 x.1 (mem_unwound_fst db x hxmem)
  simp only [revenue_by_concert_pipeline, hok]

theorem get_revenue_by_concert_ok (db : CrudDB)
    (h3 : ∀ c ∈ db.concerts, c.total_seats ≠ 0) :
    get_revenue_by_concert (.ok db) =
      (sortS (fun a b => decide (b.total_revenue ≤ a.total_revenue))
        (((revenueKeys (unwoundConcerts db)).filterMap
          (revenueGroupRow (unwoundConcerts db))).map occupancyRow), []) := by
  simp only [get_revenue_by_concert, runReport, revenue_pipeline_ok db h3]

theorem filter_flatMap_lemma (g : α → List β) (p : β → Bool) :
    ∀ l : List α, (l.flatMap g).filter p =
      l.flatMap (fun a => (g a).filter p) := by
  intro l
  induction l with
  | nil => rfl
  | cons x xs ih => simp [List.flatMap_cons, List.filter_append, ih]

theorem flatMap_eq_nil_of (g : α → List β) :
    ∀ l : List α, (∀ x ∈ l, g x = []) → l.flatMap g = [] := by
  intro l
  induction l with
  | nil => intro _; rfl
  | cons x xs ih =>
    intro h
    rw [List.flatMap_cons, h x (List.mem_cons_self x xs), List.nil_append,
        ih (fun a ha => h a (List.mem_cons_of_mem x ha))]

theorem expandConcert_filter_oid (bookings : List MBooking)
    (c c2 : MConcert) :
    (expandConcert bookings c2).filter (fun x => x.1.oid == c.oid) =
      if c2.oid = c.oid then expandConcert bookings c2 else [] := by
  by_cases h : c2.oid = c.oid
  · rw [if_pos h, List.filter_eq_self.mpr]
    intro x hx
    have hfst := expandConcert_fst bookings c2 x hx
    simp [hfst, h]
  · rw [if_neg h]
    apply List.filter_eq_nil_iff.mpr
    intro x hx
    have hfst := expandConcert_fst bookings c2 x hx
    simp [hfst, h]

theorem flatMap_single_key (h : MConcert → List β) (cs : List MConcert)
    (hnd : (cs.map (fun x => x.oid)).Nodup) (c : MConcert) (hc : c ∈ cs) :
    cs.flatMap (fun x => if x.oid = c.oid then h x else []) = h c := by
  induction cs with
  | nil => cases hc
  | cons a l ih =>
    have hnd2 : a.oid ∉ l.map (fun x => x.oid) ∧
        (l.map (fun x => x.oid)).Nodup := by
      rw [List.map_cons, List.nodup_cons] at hnd
      exact hnd
    rw [List.flatMap_cons]
    rcases List.mem_cons.mp hc with rfl | hcl
    · rw [if_pos rfl, flatMap_eq_nil_of _ l ?hz, List.append_nil]
      case hz =>
        intro x hx
        have hne : x.oid ≠ c.oid := by
          intro he
          exact hnd2.1 (he ▸ List.mem_map_of_mem (fun x => x.oid) hx)
        rw [if_neg hne]
    · have hne : a.oid ≠ c.oid := by
        intro he
        exact hnd2.1 (he.symm ▸ List.mem_map_of_mem (fun x => x.oid) hcl)
      rw [if_neg hne, List.nil_append, ih hnd2.2 hcl]

theorem revenueGroup_unwound_eq (db : CrudDB)
    (h1 : (db.concerts.map (fun c => c.oid)).Nodup)
    (c : MConcert) (hc : c ∈ db.concerts) :
    revenueGroup (unwoundConcerts db) c.oid =
      expandConcert db.bookings c := by
  unfold revenueGroup unwoundConcerts
  rw [filter_flatMap_lemma]
  rw [flatMap_congr _ _ db.concerts
    (fun c2 _ => expandConcert_filter_oid db.bookings c c2)]
  exact flatMap_single_key (expandConcert db.bookings) db.concerts h1 c hc

theorem mongoRound_zero (d : Nat) : mongoRound d 0 = 0 := by
  simp [mongoRound, roundHalfEven]

/-! ## Claim C1: occupancy rate and the zero-seats boundary -/

/-- Claim C1 (amended): `get_revenue_by_concert` computes
`occupancy_rate = tickets_sold / total_seats * 100` for every row whenever
every concert has nonzero `total_seats`; the `total_seats = 0` guard that
yields occupancy 0 lives only in the separate concert-occupancy block of the
`/analytics` route (second conjunct).  When some concert has
`total_seats = 0`, the unguarded `$divide` fails and the whole report
degrades to the empty list (see the counterexample). -/
theorem c1_occupancy :
    (∀ db : CrudDB, (∀ c ∈ db.concerts, c.total_seats ≠ 0) →
       ∃ rows, get_revenue_by_concert (.ok db) = (rows, []) ∧
         ∀ r ∈ rows, r.occupancy_rate =
           (r.tickets_sold : Rat) / (r.total_seats : Rat) * 100) ∧
    (∀ db : AppDB, ∀ r ∈ concert_occupancy db,
       r.total_seats = 0 → r.occupancy_rate = 0) := by
  constructor
  · intro db h3
    refine ⟨_, get_revenue_by_concert_ok db h3, ?_⟩
    intro r hr
    have hr2 : r ∈ ((revenueKeys (unwoundConcerts db)).filterMap
        (revenueGroupRow (unwoundConcerts db))).map occupancyRow :=
      (sortS_perm _ _).mem_iff.mp hr
    obtain ⟨g, _, hgr⟩ := List.mem_map.mp hr2
    rw [← hgr]
    rfl
  · intro db r hr h0
    have hr2 := (sortS_perm _ _).mem_iff.mp hr
    obtain ⟨c, _, hcr⟩ := List.mem_map.mp hr2
    subst hcr
    simp only [OccupancyRow.mk.injEq] at h0 ⊢
    simp only [h0, if_pos rfl] at *
    exact mongoRound_zero 1

/-- Counterexample for C1 as stated: on a store holding one concert with
`total_seats = 0`, `get_revenue_by_concert` returns no row at all (the
`$divide` fails and is logged), instead of a row with `occupancy_rate = 0`. -/
theorem c1_counterexample :
    get_revenue_by_concert (.ok c1ZeroDB) =
      ([], ["Error in revenue by concert aggregation: cannot divide by zero"]) ∧
    c1ZeroDB.concerts.length = 1 :=
  ⟨rfl, rfl⟩

/-- Witness for C1 at a concrete state with nonzero seats. -/
theorem c1_witness :
    ∃ rows, get_revenue_by_concert (.ok c3db) = (rows, []) ∧
      ∀ r ∈ rows, r.occupancy_rate =
        (r.tickets_sold : Rat) / (r.total_seats : Rat) * 100 :=
  c1_occupancy.1 c3db (by decide)

/-! ## Claim C2: revenue conservation of the revenue-by-concert report -/

/-- Claim C2 (amended): when every booking's concert exists, concert ids are
unique and every concert has nonzero `total_seats` (without which the report
degrades to the empty list, see the counterexample), the total of
`total_revenue` over the report equals the total of `total_amount` over all
bookings, and every concert contributes a row whose `total_revenue` is the
sum over exactly its own bookings (in particular 0 for a concert with no
bookings). -/
theorem c2_revenue_sum (db : CrudDB)
    (h1 : (db.concerts.map (fun c => c.oid)).Nodup)
    (h2 : ∀ b ∈ db.bookings, ∃ c ∈ db.concerts, c.oid = b.concert_id)
    (h3 : ∀ c ∈ db.concerts, c.total_seats ≠ 0) :
    ∃ rows, get_revenue_by_concert (.ok db) = (rows, []) ∧
      (rows.map (fun r => r.total_revenue)).sum =
        (db.bookings.map (fun b => b.total_amount)).sum ∧
      ∀ c ∈ db.concerts, ∃ r ∈ rows, r.oid = c.oid ∧
        r.total_revenue = ((db.bookings.filter
          (fun b => b.concert_id == c.oid)).map
            (fun b => b.total_amount)).sum := by
  refine ⟨_, get_revenue_by_concert_ok db h3, ?_, ?_⟩
  · have hperm := (sortS_perm
      (fun a b : RevenueRow => decide (b.total_revenue ≤ a.total_revenue))
      (((revenueKeys (unwoundConcerts db)).filterMap
        (revenueGroupRow (unwoundConcerts db))).map occupancyRow)).map
      (fun r => r.total_revenue)
    rw [hperm.sum_eq, List.map_map]
    have hstep1 : (((revenueKeys (unwoundConcerts db)).filterMap
        (revenueGroupRow (unwoundConcerts db))).map
          ((fun r : RevenueRow => r.total_revenue) ∘ occupancyRow)).sum =
        ((revenueKeys (unwoundConcerts db)).map (fun k =>
          ((revenueGroup (unwoundConcerts db) k).map
            (fun y => bookingAmount y.2)).sum)).sum := by
      apply sum_map_filterMap
      intro k hk
      obtain ⟨g, hg, _, hrev⟩ :=
        revenueGroupRow_revenue (unwoundConcerts db) k hk
      exact ⟨g, hg, hrev⟩
    rw [hstep1]
    have hstep2 : ((revenueKeys (unwoundConcerts db)).map (fun k =>
        ((revenueGroup (unwoundConcerts db) k).map
          (fun y => bookingAmount y.2)).sum)).sum =
        ((unwoundConcerts db).map (fun y => bookingAmount y.2)).sum := by
      apply sum_groups (fun x : MConcert × Option MBooking => x.1.oid)
        (fun y => bookingAmount y.2) _ (List.nodup_dedup _)
      intro x hx
      exact List.mem_dedup.mpr (List.mem_map_of_mem _ hx)
    rw [hstep2]
    unfold unwoundConcerts
    rw [sum_map_flatMap]
    rw [List.map_congr_left (fun c _ => expandConcert_amount_sum db.bookings c)]
    have hstep3 : (db.concerts.map (fun c =>
        ((db.bookings.filter (fun b => b.concert_id == c.oid)).map
          (fun b => b.total_amount)).sum)).sum =
        ((db.concerts.map (fun c => c.oid)).map (fun k =>
          ((db.bookings.filter (fun b => b.concert_id == k)).map
            (fun b => b.total_amount)).sum)).sum := by
      rw [List.map_map]
      rfl
    rw [hstep3]
    apply sum_groups (fun b : MBooking => b.concert_id)
      (fun b => b.total_amount) _ h1
    intro b hb
    obtain ⟨c, hcmem, hcoid⟩ := h2 b hb
    exact List.mem_map.mpr ⟨c, hcmem, hcoid⟩
  · intro c hc
    have hkmem : c.oid ∈ revenueKeys (unwoundConcerts db) := by
      obtain ⟨mb, hmb⟩ := expandConcert_self_mem db.bookings c
      have humem : (c, mb) ∈ unwoundConcerts db :=
        List.mem_flatMap.mpr ⟨c, hc, hmb⟩
      exact List.mem_dedup.mpr (List.mem_map_of_mem _ humem)
    obtain ⟨g, hg, hgid, hrev⟩ :=
      revenueGroupRow_revenue (unwoundConcerts db) c.oid hkmem
    refine ⟨occupancyRow g, ?_, ?_, ?_⟩
    · apply (sortS_perm _ _).mem_iff.mpr
      exact List.mem_map_of_mem occupancyRow
        (List.mem_filterMap.mpr ⟨c.oid, hkmem, hg⟩)
    · exact hgid
    · show g.total_revenue = _
      rw [hrev, revenueGroup_unwound_eq db h1 c hc,
        expandConcert_amount_sum db.bookings c]

/-- Counterexample for C2 as stated: every booking's concert exists, the
bookings carry 150 of revenue, but the zero-seat concert makes the occupancy
stage fail, so the report is empty and its revenue total is 0, not 150. -/
theorem c2_counterexample :
    (∀ b ∈ c2BadDB.bookings, ∃ c ∈ c2BadDB.concerts,
       c.oid = b.concert_id) ∧
    ((get_revenue_by_concert (.ok c2BadDB)).1.map
      (fun r => r.total_revenue)).sum = 0 ∧
    (c2BadDB.bookings.map (fun b => b.total_amount)).sum = 150 := by
  refine ⟨by decide, rfl, by norm_num [c2BadDB, c2Booking]⟩

/-- Witness for C2 at a concrete state satisfying all three hypotheses. -/
theorem c2_witness :
    ∃ rows, get_revenue_by_concert (.ok c3db) = (rows, []) ∧
      (rows.map (fun r => r.total_revenue)).sum =
        (c3db.bookings.map (fun b => b.total_amount)).sum ∧
      ∀ c ∈ c3db.concerts, ∃ r ∈ rows, r.oid = c.oid ∧
        r.total_revenue = ((c3db.bookings.filter
          (fun b => b.concert_id == c.oid)).map
            (fun b => b.total_amount)).sum :=
  c2_revenue_sum c3db (by decide) (by decide) (by decide)

/-! ## Claim C10: inner joins silently drop dangling bookings -/

theorem map_filter_keyNat (key : β → Nat) (q : Nat → Bool) :
    ∀ l : List β,
      (l.filter (fun b => q (key b))).map key = (l.map key).filter q := by
  intro l
  induction l with
  | nil => rfl
  | cons b l ih =>
    by_cases h : q (key b) = true
    · simp [List.filter_cons, h, ih]
    · simp [List.filter_cons, h, ih]

theorem filter_filter_keyNat (key : β → Nat) (q : Nat → Bool) (k : Nat)
    (hq : q k = true) :
    ∀ l : List β,
      (l.filter (fun b => q (key b))).filter (fun b => key b == k) =
        l.filter (fun b => key b == k) := by
  intro l
  induction l with
  | nil => rfl
  | cons b l ih =>
    by_cases hk : key b = k
    · have hqb : q (key b) = true := by rw [hk]; exact hq
      simp [List.filter_cons, hqb, hk, ih, hq]
    · by_cases hqb : q (key b) = true
      · simp [List.filter_cons, hqb, hk, ih, hq]
      · simp [List.filter_cons, hqb, hk, ih, hq]

/-- Filtering out the elements whose key fails `q` before a
group-then-inner-join does not change the joined rows, provided the join
discards exactly the groups whose key fails `q`. -/
theorem groupedRows_filter (key : β → Nat) (q : Nat → Bool)
    (mkG : List β → Nat → γ) (h : γ → List ρ)
    (hmk : ∀ (l : List β) (k : Nat), q k = true →
       mkG (l.filter (fun b => q (key b))) k = mkG l k)
    (hnil : ∀ (l : List β) (k : Nat), q k = false → h (mkG l k) = [])
    (l : List β) :
    ((((l.filter (fun b => q (key b))).map key).dedup).map
      (mkG (l.filter (fun b => q (key b))))).flatMap h =
    (((l.map key).dedup).map (mkG l)).flatMap h := by
  rw [map_filter_keyNat key q l, dedup_filter q (l.map key)]
  rw [flatMap_map, flatMap_map]
  rw [flatMap_congr _ _ ((l.map key).dedup.filter q)
    (fun k hk => by rw [hmk l k (List.mem_filter.mp hk).2])]
  exact flatMap_filter_keys q (fun k => h (mkG l k))
    (fun k hk => hnil l k hk) ((l.map key).dedup)

/-- Claim C10: a booking whose referenced concert (popular-concerts report)
or referenced customer (top-customers report) does not exist contributes to
no output row: deleting all such dangling bookings beforehand leaves either
report unchanged. -/
theorem c10_inner_join_drops_dangling :
    (∀ (db : CrudDB) (limit : Nat),
       get_popular_concerts (.ok { db with bookings := db.bookings.filter (fun b => db.concerts.any (fun c => c.oid == b.concert_id)) }) limit =
       get_popular_concerts (.ok db) limit) ∧
    (∀ (db : CrudDB) (limit : Nat),
       get_top_customers_by_spending (.ok { db with bookings := db.bookings.filter (fun b => db.customers.any (fun cu => cu.oid == b.customer_id)) }) limit =
       get_top_customers_by_spending (.ok db) limit) := by
  constructor
  · intro db limit
    have hrows : popularRows (db.bookings.filter (fun b => db.concerts.any (fun c => c.oid == b.concert_id))) db.concerts = popularRows db.bookings db.concerts := by
      unfold popularRows popularGroups
      refine groupedRows_filter (fun b => b.concert_id)
        (fun k => db.concerts.any (fun c => c.oid == k))
        (fun l k => ({ oid := k, total_tickets_sold := ((l.filter (fun b => b.concert_id == k)).map (fun b => b.quantity)).sum, total_revenue := ((l.filter (fun b => b.concert_id == k)).map (fun b => b.total_amount)).sum, unique_customers := ((l.filter (fun b => b.concert_id == k)).map (fun b => b.customer_id)).dedup } : PopGroup))
        (fun g : PopGroup => (db.concerts.filter (fun c => c.oid == g.oid)).map (fun c => ({ oid := g.oid, concert_name := c.name, artist := c.artist, venue := c.venue, date := c.date, total_tickets_sold := g.total_tickets_sold, total_revenue := g.total_revenue, unique_customers_count := g.unique_customers.length } : PopularRow)))
        ?_ ?_ db.bookings
      · intro l k hq
        have hg := filter_filter_keyNat (fun b : MBooking => b.concert_id)
          (fun k2 => db.concerts.any (fun c => c.oid == k2)) k hq l
        simp only [hg]
      · intro l k hq
        have hfe : db.concerts.filter (fun c => c.oid == k) = [] := by
          apply List.filter_eq_nil_iff.mpr
          intro c hcmem
          simpa using List.any_eq_false.mp hq c hcmem
        simp [hfe]
    simp only [get_popular_concerts, runReport, popular_concerts_pipeline]
    rw [hrows]
  · intro db limit
    have hjoined : topCustomerJoined (db.bookings.filter (fun b => db.customers.any (fun cu => cu.oid == b.customer_id))) db.customers = topCustomerJoined db.bookings db.customers := by
      unfold topCustomerJoined topCustomerGroups
      refine groupedRows_filter (fun b => b.customer_id)
        (fun k => db.customers.any (fun cu => cu.oid == k))
        (fun l k => ({ oid := k, total_spent := ((l.filter (fun b => b.customer_id == k)).map (fun b => b.total_amount)).sum, total_bookings := (l.filter (fun b => b.customer_id == k)).length, total_tickets := ((l.filter (fun b => b.customer_id == k)).map (fun b => b.quantity)).sum } : TopCustGroup))
        (fun g : TopCustGroup => (db.customers.filter (fun cu => cu.oid == g.oid)).map (fun cu => (g, cu)))
        ?_ ?_ db.bookings
      · intro l k hq
        have hg := filter_filter_keyNat (fun b : MBooking => b.customer_id)
          (fun k2 => db.customers.any (fun cu => cu.oid == k2)) k hq l
        simp only [hg]
      · intro l k hq
        have hfe : db.customers.filter (fun cu => cu.oid == k) = [] := by
          apply List.filter_eq_nil_iff.mpr
          intro cu hcmem
          simpa using List.any_eq_false.mp hq cu hcmem
        simp [hfe]
    simp only [get_top_customers_by_spending, runReport, top_customers_pipeline]
    rw [hjoined]

end Billing
